import Mathlib

/-!
Verification of the NEW_MAP telemetry relay.

The repository contains two iterations of the same small service:
  * `src/telemetry_node/src/main.rs` — the shared-secret variant with the
    `NodeError` taxonomy (`RedisError`, `Unauthorized`, `InvalidPayload`,
    `Internal`) and a structured JSON error body;
  * `src/src/main.rs` — the JWT variant that returns bare status codes.

This file shallowly embeds both request handlers.  External effects
(the Redis connection pool, the publish call, the serde serializer and
the jsonwebtoken verifier) enter the handler as explicit outcome
parameters, exactly at the call sites where the Rust code consumes the
corresponding `Result` values; the handler's own branch structure is
translated line by line.  Machine floats are modelled as exact values
tagged finite / NaN / +inf / -inf, which is all the handler ever
inspects (`is_finite` and ordered comparison against the exact literals
-90, 90, -180, 180).  JSON is modelled at the value (AST) level; the
serializer below mirrors serde_json's derived `Serialize` for the two
structs (in particular serde_json writes `null` for non-finite floats),
and the deserializer mirrors serde's derived `Deserialize`
(missing-or-null optional fields become `None`).
-/

/-- Model of an `f64` as the Rust handler observes it: an exact finite
value or one of the non-finite classes.  The handler only ever calls
`is_finite` and compares against the exactly-representable literals
-90, 90, -180 and 180, so exact rationals are a faithful carrier for
the finite case. -/
inductive F64 where
  | finite (q : Rat)
  | nan
  | inf
  | negInf
deriving DecidableEq

/-- Rust `f64::is_finite`. -/
def F64.isFinite : F64 → Bool
  | .finite _ => true
  | _ => false

/-- IEEE-754 `<=` restricted to the values this program compares:
any comparison involving NaN is false, -inf is below everything else,
+inf above everything else. -/
def F64.le : F64 → F64 → Bool
  | .nan, _ => false
  | _, .nan => false
  | .negInf, _ => true
  | .finite _, .negInf => false
  | .inf, .negInf => false
  | .finite a, .finite b => decide (a ≤ b)
  | .finite _, .inf => true
  | .inf, .finite _ => false
  | .inf, .inf => true

/-- Rust `RangeInclusive::contains`: `lo <= x && x <= hi`. -/
def rangeContains (lo hi x : F64) : Bool :=
  lo.le x && x.le hi

/-- JSON values, with object fields kept in serialization order. -/
inductive Json where
  | null
  | bool (b : Bool)
  | num (q : Rat)
  | str (s : String)
  | arr (elems : List Json)
  | obj (fields : List (String × Json))

/-- Field lookup in a JSON object (first occurrence of the key). -/
def Json.getField? : Json → String → Option Json
  | .obj fs, key => fs.lookup key
  | _, _ => none

/-- Deserialize a JSON value as a string, as serde does for `String`. -/
def Json.asStr? : Json → Option String
  | .str s => some s
  | _ => none

/-- serde_json serialization of an `f64`: finite values print as
numbers; NaN and the infinities are written as `null`. -/
def F64.toJson : F64 → Json
  | .finite q => .num q
  | _ => .null

/-- serde deserialization of an `f64`: only a JSON number is accepted. -/
def F64.fromJson? : Json → Option F64
  | .num q => some (.finite q)
  | _ => none

/-- The `TelemetryPayload` struct of both `main.rs` variants. -/
structure TelemetryPayload where
  user_id : String
  lat : F64
  lon : F64
  accuracy_m : Option F64
  unit_label : Option String
deriving DecidableEq

/-- serde serialization of `Option<f64>`: `None` prints as `null`. -/
def optF64ToJson : Option F64 → Json
  | none => .null
  | some x => x.toJson

/-- serde serialization of `Option<String>`: `None` prints as `null`. -/
def optStrToJson : Option String → Json
  | none => .null
  | some s => .str s

/-- serde_json serialization of `TelemetryPayload`, fields in
declaration order. -/
def TelemetryPayload.toJson (p : TelemetryPayload) : Json :=
  .obj [("user_id", .str p.user_id),
        ("lat", p.lat.toJson),
        ("lon", p.lon.toJson),
        ("accuracy_m", optF64ToJson p.accuracy_m),
        ("unit_label", optStrToJson p.unit_label)]

/-- serde handling of an `Option<T>` field: a missing field or an
explicit `null` is `None`; any other value must deserialize as `T`. -/
def optionalField {α : Type} (j : Json) (key : String) (f : Json → Option α) :
    Option (Option α) :=
  match j.getField? key with
  | none => some none
  | some .null => some none
  | some v => (f v).map some

/-- serde's derived `Deserialize` for `TelemetryPayload`: `user_id`,
`lat` and `lon` are required, the two `Option` fields default to
`None`. -/
def TelemetryPayload.fromJson? (j : Json) : Option TelemetryPayload := do
  let u ← (j.getField? "user_id").bind Json.asStr?
  let la ← (j.getField? "lat").bind F64.fromJson?
  let lo ← (j.getField? "lon").bind F64.fromJson?
  let acc ← optionalField j "accuracy_m" F64.fromJson?
  let ul ← optionalField j "unit_label" Json.asStr?
  pure ⟨u, la, lo, acc, ul⟩

/-- The `WsMessage` forwarding envelope of both variants. -/
structure WsMessage where
  event : String
  data : TelemetryPayload
deriving DecidableEq

/-- serde_json serialization of `WsMessage`. -/
def WsMessage.toJson (m : WsMessage) : Json :=
  .obj [("event", .str m.event), ("data", m.data.toJson)]

/-- Deserialization of a published envelope back into a `WsMessage`:
an `event` string and a `data` telemetry payload. -/
def WsMessage.fromJson? (j : Json) : Option WsMessage := do
  let e ← (j.getField? "event").bind Json.asStr?
  let d ← (j.getField? "data").bind TelemetryPayload.fromJson?
  pure ⟨e, d⟩

/-- The `NodeError` enum of `src/telemetry_node/src/main.rs`. -/
inductive NodeError where
  | RedisError (msg : String)
  | Unauthorized
  | InvalidPayload (msg : String)
  | Internal (msg : String)
deriving DecidableEq

/-- Discriminator for the `Internal` error kind. -/
def NodeError.isInternal : NodeError → Bool
  | .Internal _ => true
  | _ => false

/-- `impl IntoResponse for NodeError` (telemetry_node, lines 47-71):
status code plus a JSON body with machine-readable `error` code and a
human `message`. -/
def NodeError.into_response (e : NodeError) : Nat × Json :=
  let scm : Nat × String × String :=
    match e with
    | .RedisError msg => (500, "redis_error", msg)
    | .Unauthorized => (401, "unauthorized", "Unauthorized")
    | .InvalidPayload msg => (400, "invalid_payload", msg)
    | .Internal msg => (500, "internal_error", msg)
  (scm.1, Json.obj [("error", .str scm.2.1), ("message", .str scm.2.2)])

/-- A header value: a readable (ASCII) value carrying a string, or a
value on which `HeaderValue::to_str` fails. -/
inductive HeaderValue where
  | valid (s : String)
  | invalid
deriving DecidableEq

/-- `HeaderValue::to_str().ok()`. -/
def HeaderValue.toStr? : HeaderValue → Option String
  | .valid s => some s
  | .invalid => none

/-- The two headers `authorize` reads from the request's `HeaderMap`:
`authorization` and `x-node-token`, each possibly absent. -/
structure HeaderMap where
  authorization : Option HeaderValue
  x_node_token : Option HeaderValue
deriving DecidableEq

/-- Rust `str::trim`: the string with leading and trailing whitespace
removed, written over the character list so that it evaluates. -/
def trimChars (s : String) : String :=
  ⟨((s.data.dropWhile Char.isWhitespace).reverse.dropWhile Char.isWhitespace).reverse⟩

/-- Rust `str::strip_prefix`: the remainder after the given prefix, if
the string starts with it. -/
def dropPrefixStr (p s : String) : Option String :=
  if p.data.isPrefixOf s.data then some ⟨s.data.drop p.data.length⟩ else none

/-- The bearer arm of credential extraction (telemetry_node, lines
78-82): the `authorization` header, if readable and carrying the exact
prefix "Bearer ", yields the remainder, whitespace-trimmed. -/
def bearerValue (headers : HeaderMap) : Option String :=
  (headers.authorization.bind HeaderValue.toStr?).bind
    (fun v => (dropPrefixStr "Bearer " v).map trimChars)

/-- The fallback arm of credential extraction (telemetry_node, lines
83-88): the `x-node-token` header's readable value, whitespace-trimmed. -/
def xNodeTokenValue (headers : HeaderMap) : Option String :=
  (headers.x_node_token.bind HeaderValue.toStr?).map trimChars

/-- The full credential extraction pipeline of `authorize`
(telemetry_node, lines 78-88): the bearer arm, or else the
`x-node-token` arm. -/
def provided_token (headers : HeaderMap) : Option String :=
  (bearerValue headers).orElse (fun _ => xNodeTokenValue headers)

/-- `authorize` (telemetry_node, lines 73-94): no configured token
means open mode; otherwise the extracted credential must equal the
expected token exactly. -/
def authorize (headers : HeaderMap) (expected_token : Option String) :
    Except NodeError Unit :=
  match expected_token with
  | none => .ok ()
  | some expected =>
    match provided_token headers with
    | some token => if token = expected then .ok () else .error .Unauthorized
    | none => .error .Unauthorized

/-- Observable side effects of one handler run: how many connections
were taken from the Redis pool, and the list of publish calls issued as
(channel, message) pairs. -/
structure HandlerTrace where
  poolGets : Nat
  publishes : List (String × Json)

/-- `handle_telemetry` of `src/telemetry_node/src/main.rs` (lines
96-132).  `ser` is the serde_json serializer applied to the constructed
envelope, `pool_get` the outcome of `state.redis_pool.get()`, and
`publish` the outcome of `con.publish("map_updates", msg_str)`; each is
consumed exactly where the Rust code consumes the corresponding
`Result`.  Returns the handler's `Result` together with the trace of
pool and publish effects. -/
def handle_telemetry (node_token : Option String) (headers : HeaderMap)
    (payload : TelemetryPayload) (ser : WsMessage → Except String Json)
    (pool_get : Except String Unit) (publish : Except String Nat) :
    Except NodeError (Nat × String) × HandlerTrace :=
  match authorize headers node_token with
  | .error e => (.error e, ⟨0, []⟩)
  | .ok _ =>
    if (!payload.lat.isFinite) || (!payload.lon.isFinite) then
      (.error (.InvalidPayload "Coordinates must be finite numbers"), ⟨0, []⟩)
    else if (!rangeContains (.finite (-90)) (.finite 90) payload.lat)
        || (!rangeContains (.finite (-180)) (.finite 180) payload.lon) then
      (.error (.InvalidPayload "lat/lon out of range"), ⟨0, []⟩)
    else
      let ws_msg : WsMessage := { event := "duty_location_update", data := payload }
      match ser ws_msg with
      | .error e =>
        (.error (.InvalidPayload ("serialization failed: " ++ e)), ⟨0, []⟩)
      | .ok msg_str =>
        match pool_get with
        | .error e => (.error (.RedisError ("pool get failed: " ++ e)), ⟨1, []⟩)
        | .ok _ =>
          match publish with
          | .error e =>
            (.error (.RedisError ("publish failed: " ++ e)),
             ⟨1, [("map_updates", msg_str)]⟩)
          | .ok _ => (.ok (200, "OK"), ⟨1, [("map_updates", msg_str)]⟩)

/-- The actual serializer used by the running program: serde_json
serialization of `WsMessage` never fails for this type (non-finite
floats become `null` rather than an error), so it always returns the
envelope's JSON value. -/
def serialize_ws_message (m : WsMessage) : Except String Json :=
  .ok m.toJson

/-- `NODE_TOKEN` processing at startup (telemetry_node, line 143):
`std::env::var("NODE_TOKEN").ok().filter(|v| !v.trim().is_empty())`. -/
def node_token_from_env (env : Option String) : Option String :=
  env.filter (fun v => !(trimChars v).data.isEmpty)

/-- `handle_telemetry` of `src/src/main.rs` (lines 51-85), the JWT
variant.  `token_valid` is the outcome of `validate_bearer_token`
(the external jsonwebtoken verification); `pool_get`, `ser` and
`publish` are the external call outcomes as in the other variant.
This variant acquires the pool connection before serializing and
returns bare status codes. -/
def handle_telemetry_jwt (token_valid : Bool) (payload : TelemetryPayload)
    (pool_get : Except Unit Unit) (ser : WsMessage → Except Unit Json)
    (publish : Except Unit Nat) : Except Nat Nat × HandlerTrace :=
  if !token_valid then (.error 401, ⟨0, []⟩)
  else
    match pool_get with
    | .error _ => (.error 500, ⟨1, []⟩)
    | .ok _ =>
      let ws_msg : WsMessage := { event := "duty_location_update", data := payload }
      match ser ws_msg with
      | .error _ => (.error 500, ⟨1, []⟩)
      | .ok msg_str =>
        match publish with
        | .error _ => (.error 500, ⟨1, [("map_updates", msg_str)]⟩)
        | .ok _ => (.ok 200, ⟨1, [("map_updates", msg_str)]⟩)

/-! ## Helper lemmas -/

/-- With a configured secret, any extracted credential other than the
secret itself is rejected. -/
lemma authorize_reject (hm : HeaderMap) (secret : String)
    (h : provided_token hm ≠ some secret) :
    authorize hm (some secret) = .error .Unauthorized := by
  unfold authorize
  cases hp : provided_token hm with
  | none => rfl
  | some t =>
    have ht : ¬ t = secret := by
      intro he
      exact h (by rw [hp, he])
    simp [ht]

/-- A fully valid, authorized run with a successful publish returns
200 "OK" and issues exactly one publish on `map_updates`. -/
lemma handle_valid_publish_ok (tok : Option String) (hm : HeaderMap)
    (p : TelemetryPayload) (n : Nat)
    (hauth : authorize hm tok = .ok ())
    (h1 : p.lat.isFinite = true) (h2 : p.lon.isFinite = true)
    (h3 : rangeContains (.finite (-90)) (.finite 90) p.lat = true)
    (h4 : rangeContains (.finite (-180)) (.finite 180) p.lon = true) :
    handle_telemetry tok hm p serialize_ws_message (.ok ()) (.ok n)
      = (.ok (200, "OK"),
         ⟨1, [("map_updates",
               WsMessage.toJson { event := "duty_location_update", data := p })]⟩) := by
  unfold handle_telemetry
  rw [hauth]
  simp [h1, h2, h3, h4, serialize_ws_message]

/-- A valid, authorized run whose pool acquisition fails surfaces a
`RedisError` and publishes nothing. -/
lemma handle_valid_pool_err (tok : Option String) (hm : HeaderMap)
    (p : TelemetryPayload) (e : String) (pub : Except String Nat)
    (hauth : authorize hm tok = .ok ())
    (h1 : p.lat.isFinite = true) (h2 : p.lon.isFinite = true)
    (h3 : rangeContains (.finite (-90)) (.finite 90) p.lat = true)
    (h4 : rangeContains (.finite (-180)) (.finite 180) p.lon = true) :
    handle_telemetry tok hm p serialize_ws_message (.error e) pub
      = (.error (.RedisError ("pool get failed: " ++ e)), ⟨1, []⟩) := by
  unfold handle_telemetry
  rw [hauth]
  simp [h1, h2, h3, h4, serialize_ws_message]

/-- A valid, authorized run whose publish call fails surfaces a
`RedisError`; the one publish attempt is in the trace. -/
lemma handle_valid_publish_err (tok : Option String) (hm : HeaderMap)
    (p : TelemetryPayload) (e : String)
    (hauth : authorize hm tok = .ok ())
    (h1 : p.lat.isFinite = true) (h2 : p.lon.isFinite = true)
    (h3 : rangeContains (.finite (-90)) (.finite 90) p.lat = true)
    (h4 : rangeContains (.finite (-180)) (.finite 180) p.lon = true) :
    handle_telemetry tok hm p serialize_ws_message (.ok ()) (.error e)
      = (.error (.RedisError ("publish failed: " ++ e)),
         ⟨1, [("map_updates",
               WsMessage.toJson { event := "duty_location_update", data := p })]⟩) := by
  unfold handle_telemetry
  rw [hauth]
  simp [h1, h2, h3, h4, serialize_ws_message]

/-- A valid, authorized run whose serializer errors stops before the
pool: the handler maps the error to `InvalidPayload`. -/
lemma handle_valid_ser_err (tok : Option String) (hm : HeaderMap)
    (p : TelemetryPayload) (ser : WsMessage → Except String Json) (e : String)
    (pg : Except String Unit) (pub : Except String Nat)
    (hauth : authorize hm tok = .ok ())
    (h1 : p.lat.isFinite = true) (h2 : p.lon.isFinite = true)
    (h3 : rangeContains (.finite (-90)) (.finite 90) p.lat = true)
    (h4 : rangeContains (.finite (-180)) (.finite 180) p.lon = true)
    (hser : ser { event := "duty_location_update", data := p } = .error e) :
    handle_telemetry tok hm p ser pg pub
      = (.error (.InvalidPayload ("serialization failed: " ++ e)), ⟨0, []⟩) := by
  unfold handle_telemetry
  rw [hauth]
  simp [h1, h2, h3, h4, hser]

/-- Concrete in-range payload reused across witnesses. -/
def p_simple : TelemetryPayload :=
  { user_id := "u1", lat := .finite 10, lon := .finite 20,
    accuracy_m := none, unit_label := none }

/-! ## Claim theorems -/

/-- C6: in static shared-secret mode, when no secret is configured,
authorization is a no-op: it succeeds for every header map. -/
theorem open_mode_authorize_ok (hm : HeaderMap) : authorize hm none = .ok () := rfl

/-- C9: a `NODE_TOKEN` environment value that is absent, empty, or
whitespace-only yields no configured secret, and authorization then
succeeds for any request. -/
theorem blank_node_token_open_mode (env : Option String) (hm : HeaderMap)
    (h : env = none ∨ ∃ s, env = some s ∧ trimChars s = "") :
    node_token_from_env env = none
      ∧ authorize hm (node_token_from_env env) = .ok () := by
  have hempty : ("" : String).data.isEmpty = true := rfl
  have hnone : node_token_from_env env = none := by
    rcases h with h | ⟨s, hs, hts⟩
    · rw [h]; rfl
    · rw [hs]
      unfold node_token_from_env
      simp [Option.filter, hts, hempty]
  exact ⟨hnone, by rw [hnone]; rfl⟩

/-- Witness for C9 at the whitespace-only value " ". -/
theorem blank_node_token_open_mode_witness :
    node_token_from_env (some " ") = none
      ∧ authorize ⟨some (.valid "anything"), none⟩ (node_token_from_env (some " "))
          = .ok () :=
  blank_node_token_open_mode (some " ") ⟨some (.valid "anything"), none⟩
    (Or.inr ⟨" ", rfl, by decide⟩)

/-- C10: with a secret configured, the credential is the Authorization
bearer remainder (whitespace-trimmed) whenever that header is readable
and carries the exact prefix "Bearer "; if the Authorization header is
absent, unreadable, or lacks the prefix, the trimmed `x-node-token`
value is used instead; and `authorize` accepts exactly when the
extracted credential equals the secret. -/
theorem credential_extraction_precedence (hm : HeaderMap) :
    (∀ v r : String, hm.authorization = some (.valid v) →
        dropPrefixStr "Bearer " v = some r →
        provided_token hm = some (trimChars r))
    ∧ ((hm.authorization = none ∨ hm.authorization = some .invalid
        ∨ (∃ v : String, hm.authorization = some (.valid v)
            ∧ dropPrefixStr "Bearer " v = none)) →
        provided_token hm = xNodeTokenValue hm)
    ∧ (∀ s : String,
        authorize hm (some s)
          = if provided_token hm = some s then .ok ()
            else .error .Unauthorized) := by
  refine ⟨?_, ?_, ?_⟩
  · intro v r hv hdrop
    unfold provided_token bearerValue
    rw [hv]
    simp [HeaderValue.toStr?, hdrop, Option.orElse]
  · intro h
    have hb : bearerValue hm = none := by
      rcases h with h | h | ⟨v, hv, hdrop⟩
      · unfold bearerValue; rw [h]; rfl
      · unfold bearerValue; rw [h]; rfl
      · unfold bearerValue; rw [hv]; simp [HeaderValue.toStr?, hdrop]
    unfold provided_token
    rw [hb]
    rfl
  · intro s
    unfold authorize
    cases hp : provided_token hm with
    | none => simp
    | some t =>
      by_cases ht : t = s
      · simp [ht]
      · simp [ht]

/-- Witness for C10: with both headers populated, the bearer remainder
wins and is trimmed. -/
theorem credential_extraction_precedence_witness :
    provided_token ⟨some (.valid "Bearer  tok "), some (.valid " other ")⟩
      = some (trimChars " tok ") :=
  (credential_extraction_precedence
      ⟨some (.valid "Bearer  tok "), some (.valid " other ")⟩).1
    "Bearer  tok " " tok " rfl rfl

/-- C1: with a secret configured and a missing or mismatching
credential, the shared-secret handler answers 401 Unauthorized, takes
no pool connection and publishes nothing; the JWT variant with a
failing token verification does the same. -/
theorem unauthorized_rejected_no_effects (secret : String) (hm : HeaderMap)
    (p : TelemetryPayload) (ser : WsMessage → Except String Json)
    (pg : Except String Unit) (pub : Except String Nat)
    (p2 : TelemetryPayload) (pg2 : Except Unit Unit)
    (ser2 : WsMessage → Except Unit Json) (pub2 : Except Unit Nat)
    (h : provided_token hm ≠ some secret) :
    handle_telemetry (some secret) hm p ser pg pub
        = (.error NodeError.Unauthorized, ⟨0, []⟩)
    ∧ NodeError.Unauthorized.into_response.1 = 401
    ∧ handle_telemetry_jwt false p2 pg2 ser2 pub2 = (.error 401, ⟨0, []⟩) := by
  refine ⟨?_, rfl, rfl⟩
  unfold handle_telemetry
  rw [authorize_reject hm secret h]

/-- Witness for C1: no credential headers at all while "s3cret" is
configured. -/
theorem unauthorized_rejected_no_effects_witness :
    handle_telemetry (some "s3cret") ⟨none, none⟩ p_simple serialize_ws_message
        (.ok ()) (.ok 1) = (.error NodeError.Unauthorized, ⟨0, []⟩)
    ∧ NodeError.Unauthorized.into_response.1 = 401
    ∧ handle_telemetry_jwt false p_simple (.ok ()) (fun m => .ok m.toJson) (.ok 1)
        = (.error 401, ⟨0, []⟩) :=
  unauthorized_rejected_no_effects "s3cret" ⟨none, none⟩ p_simple
    serialize_ws_message (.ok ()) (.ok 1) p_simple (.ok ())
    (fun m => .ok m.toJson) (.ok 1) (by decide)

/-- Concrete payload with latitude 200, the spec's own invalid
scenario. -/
def p_lat200 : TelemetryPayload :=
  { user_id := "u1", lat := .finite 200, lon := .finite 0,
    accuracy_m := none, unit_label := none }

/-- C3: an authorized request whose latitude or longitude is out of
range or non-finite is answered with a 400 `InvalidPayload` error, with
no pool acquisition and no publish. -/
theorem invalid_coordinates_rejected (tok : Option String) (hm : HeaderMap)
    (p : TelemetryPayload) (ser : WsMessage → Except String Json)
    (pg : Except String Unit) (pub : Except String Nat)
    (hauth : authorize hm tok = .ok ())
    (h : rangeContains (.finite (-90)) (.finite 90) p.lat = false
       ∨ rangeContains (.finite (-180)) (.finite 180) p.lon = false
       ∨ p.lat.isFinite = false ∨ p.lon.isFinite = false) :
    ∃ msg, handle_telemetry tok hm p ser pg pub
        = (.error (.InvalidPayload msg), ⟨0, []⟩)
      ∧ (NodeError.InvalidPayload msg).into_response.1 = 400 := by
  cases hfl : p.lat.isFinite with
  | false =>
    refine ⟨"Coordinates must be finite numbers", ?_, rfl⟩
    unfold handle_telemetry
    rw [hauth]
    simp [hfl]
  | true =>
    cases hfol : p.lon.isFinite with
    | false =>
      refine ⟨"Coordinates must be finite numbers", ?_, rfl⟩
      unfold handle_telemetry
      rw [hauth]
      simp [hfol]
    | true =>
      have hr : rangeContains (.finite (-90)) (.finite 90) p.lat = false
          ∨ rangeContains (.finite (-180)) (.finite 180) p.lon = false := by
        rcases h with h | h | h | h
        · exact Or.inl h
        · exact Or.inr h
        · rw [hfl] at h; simp at h
        · rw [hfol] at h; simp at h
      refine ⟨"lat/lon out of range", ?_, rfl⟩
      unfold handle_telemetry
      rw [hauth]
      rcases hr with hr | hr
      · simp [hfl, hfol, hr]
      · simp [hfl, hfol, hr]

/-- Witness for C3 at the spec's scenario latitude 200. -/
theorem invalid_coordinates_rejected_witness :
    ∃ msg, handle_telemetry none ⟨none, none⟩ p_lat200 serialize_ws_message
        (.ok ()) (.ok 1)
        = (.error (.InvalidPayload msg), ⟨0, []⟩)
      ∧ (NodeError.InvalidPayload msg).into_response.1 = 400 :=
  invalid_coordinates_rejected none ⟨none, none⟩ p_lat200 serialize_ws_message
    (.ok ()) (.ok 1) rfl (Or.inl (by decide))

/-- C7: a valid, authorized request whose publish completes returns
200 "OK" whatever delivery count the broker reports. -/
theorem publish_ok_returns_200 (tok : Option String) (hm : HeaderMap)
    (p : TelemetryPayload) (n : Nat)
    (hauth : authorize hm tok = .ok ())
    (h1 : p.lat.isFinite = true) (h2 : p.lon.isFinite = true)
    (h3 : rangeContains (.finite (-90)) (.finite 90) p.lat = true)
    (h4 : rangeContains (.finite (-180)) (.finite 180) p.lon = true) :
    handle_telemetry tok hm p serialize_ws_message (.ok ()) (.ok n)
      = (.ok (200, "OK"),
         ⟨1, [("map_updates",
               WsMessage.toJson { event := "duty_location_update", data := p })]⟩) :=
  handle_valid_publish_ok tok hm p n hauth h1 h2 h3 h4

/-- Witness for C7 at delivery count zero. -/
theorem publish_ok_returns_200_witness :
    handle_telemetry none ⟨none, none⟩ p_simple serialize_ws_message (.ok ()) (.ok 0)
      = (.ok (200, "OK"),
         ⟨1, [("map_updates",
               WsMessage.toJson { event := "duty_location_update", data := p_simple })]⟩) :=
  publish_ok_returns_200 none ⟨none, none⟩ p_simple 0 rfl rfl rfl
    (by decide) (by decide)

/-- C5: on pool-acquisition failure or publish transport failure the
handler answers with status 500 and body code "redis_error", a code
distinct from the internal, payload and authorization codes. -/
theorem broker_failure_distinct_error (tok : Option String) (hm : HeaderMap)
    (p : TelemetryPayload) (e1 e2 : String) (pub : Except String Nat)
    (hauth : authorize hm tok = .ok ())
    (h1 : p.lat.isFinite = true) (h2 : p.lon.isFinite = true)
    (h3 : rangeContains (.finite (-90)) (.finite 90) p.lat = true)
    (h4 : rangeContains (.finite (-180)) (.finite 180) p.lon = true) :
    handle_telemetry tok hm p serialize_ws_message (.error e1) pub
        = (.error (.RedisError ("pool get failed: " ++ e1)), ⟨1, []⟩)
    ∧ handle_telemetry tok hm p serialize_ws_message (.ok ()) (.error e2)
        = (.error (.RedisError ("publish failed: " ++ e2)),
           ⟨1, [("map_updates",
                 WsMessage.toJson { event := "duty_location_update", data := p })]⟩)
    ∧ (NodeError.RedisError ("pool get failed: " ++ e1)).into_response.1 = 500
    ∧ (NodeError.RedisError ("pool get failed: " ++ e1)).into_response.2.getField? "error"
        = some (.str "redis_error")
    ∧ (NodeError.RedisError ("publish failed: " ++ e2)).into_response.2.getField? "error"
        = some (.str "redis_error")
    ∧ ("redis_error" ≠ "internal_error" ∧ "redis_error" ≠ "invalid_payload"
        ∧ "redis_error" ≠ "unauthorized") :=
  ⟨handle_valid_pool_err tok hm p e1 pub hauth h1 h2 h3 h4,
   handle_valid_publish_err tok hm p e2 hauth h1 h2 h3 h4,
   rfl, rfl, rfl, by decide⟩

/-- Witness for C5 at concrete failure messages. -/
theorem broker_failure_distinct_error_witness :
    handle_telemetry none ⟨none, none⟩ p_simple serialize_ws_message
        (.error "timed out") (.ok 0)
        = (.error (.RedisError ("pool get failed: " ++ "timed out")), ⟨1, []⟩)
    ∧ handle_telemetry none ⟨none, none⟩ p_simple serialize_ws_message
        (.ok ()) (.error "broken pipe")
        = (.error (.RedisError ("publish failed: " ++ "broken pipe")),
           ⟨1, [("map_updates",
                 WsMessage.toJson { event := "duty_location_update", data := p_simple })]⟩)
    ∧ (NodeError.RedisError ("pool get failed: " ++ "timed out")).into_response.1 = 500
    ∧ (NodeError.RedisError ("pool get failed: " ++ "timed out")).into_response.2.getField? "error"
        = some (.str "redis_error")
    ∧ (NodeError.RedisError ("publish failed: " ++ "broken pipe")).into_response.2.getField? "error"
        = some (.str "redis_error")
    ∧ ("redis_error" ≠ "internal_error" ∧ "redis_error" ≠ "invalid_payload"
        ∧ "redis_error" ≠ "unauthorized") :=
  broker_failure_distinct_error none ⟨none, none⟩ p_simple "timed out" "broken pipe"
    (.ok 0) rfl rfl rfl (by decide) (by decide)

/-- Round trip of the forwarding envelope at the JSON level: with
finite coordinates and a finite (or absent) accuracy, deserializing the
serialized envelope recovers it exactly. -/
lemma ws_roundtrip (p : TelemetryPayload)
    (hlat : p.lat.isFinite = true) (hlon : p.lon.isFinite = true)
    (hacc : ∀ x, p.accuracy_m = some x → x.isFinite = true) :
    WsMessage.fromJson? (WsMessage.toJson { event := "duty_location_update", data := p })
      = some { event := "duty_location_update", data := p } := by
  obtain ⟨u, la, lo, acc, ul⟩ := p
  cases la with
  | finite qla =>
    cases lo with
    | finite qlo =>
      cases acc with
      | none =>
        cases ul with
        | none => rfl
        | some s => rfl
      | some x =>
        have hx := hacc x rfl
        cases x with
        | finite qx =>
          cases ul with
          | none => rfl
          | some s => rfl
        | nan => simp [F64.isFinite] at hx
        | inf => simp [F64.isFinite] at hx
        | negInf => simp [F64.isFinite] at hx
    | nan => simp [F64.isFinite] at hlon
    | inf => simp [F64.isFinite] at hlon
    | negInf => simp [F64.isFinite] at hlon
  | nan => simp [F64.isFinite] at hlat
  | inf => simp [F64.isFinite] at hlat
  | negInf => simp [F64.isFinite] at hlat

/-- Concrete payload whose optional accuracy is +inf — accepted by
validation (only lat/lon are checked) yet serialized as `null`. -/
def p_inf_acc : TelemetryPayload :=
  { user_id := "u1", lat := .finite 1, lon := .finite 2,
    accuracy_m := some .inf, unit_label := none }

/-- Counterexample to C2 as stated: an authorized, validated request
with `accuracy_m = +inf` is published (exactly once, on `map_updates`),
but its message does not deserialize back to the original payload —
serde_json writes non-finite floats as `null`, which reads back as an
absent optional field. -/
theorem roundtrip_counterexample :
    (handle_telemetry none ⟨none, none⟩ p_inf_acc serialize_ws_message
        (.ok ()) (.ok 1)).2.publishes
        = [("map_updates",
            WsMessage.toJson { event := "duty_location_update", data := p_inf_acc })]
    ∧ WsMessage.fromJson?
        (WsMessage.toJson { event := "duty_location_update", data := p_inf_acc })
        ≠ some { event := "duty_location_update", data := p_inf_acc } := by
  refine ⟨rfl, ?_⟩
  decide

/-- C2 (amended): a well-formed, authorized request publishes exactly
once, on `map_updates`, and the published envelope deserializes back to
`event = "duty_location_update"` with the original payload unmodified,
provided the optional accuracy field, when present, is finite. -/
theorem roundtrip_amended (tok : Option String) (hm : HeaderMap)
    (p : TelemetryPayload) (n : Nat)
    (hauth : authorize hm tok = .ok ())
    (h1 : p.lat.isFinite = true) (h2 : p.lon.isFinite = true)
    (h3 : rangeContains (.finite (-90)) (.finite 90) p.lat = true)
    (h4 : rangeContains (.finite (-180)) (.finite 180) p.lon = true)
    (hacc : ∀ x, p.accuracy_m = some x → x.isFinite = true) :
    (handle_telemetry tok hm p serialize_ws_message (.ok ()) (.ok n)).2.publishes
        = [("map_updates",
            WsMessage.toJson { event := "duty_location_update", data := p })]
    ∧ WsMessage.fromJson?
        (WsMessage.toJson { event := "duty_location_update", data := p })
        = some { event := "duty_location_update", data := p } := by
  refine ⟨?_, ws_roundtrip p h1 h2 hacc⟩
  rw [handle_valid_publish_ok tok hm p n hauth h1 h2 h3 h4]

/-- Witness for the amended C2 at a plain in-range payload. -/
theorem roundtrip_amended_witness :
    (handle_telemetry none ⟨none, none⟩ p_simple serialize_ws_message
        (.ok ()) (.ok 1)).2.publishes
        = [("map_updates",
            WsMessage.toJson { event := "duty_location_update", data := p_simple })]
    ∧ WsMessage.fromJson?
        (WsMessage.toJson { event := "duty_location_update", data := p_simple })
        = some { event := "duty_location_update", data := p_simple } :=
  roundtrip_amended none ⟨none, none⟩ p_simple 1 rfl rfl rfl (by decide) (by decide)
    (fun _ hx => nomatch hx)

/-- Counterexample to C4 as stated: when the serializer fails, the
shared-secret handler maps the failure to `InvalidPayload` (status
400), not to the `Internal` kind the claim names; no pool connection is
taken and nothing is published. -/
theorem ser_failure_counterexample :
    handle_telemetry none ⟨none, none⟩ p_simple (fun _ => .error "boom")
        (.ok ()) (.ok 0)
        = (.error (.InvalidPayload ("serialization failed: " ++ "boom")), ⟨0, []⟩)
    ∧ (NodeError.InvalidPayload ("serialization failed: " ++ "boom")).into_response.1 = 400
    ∧ NodeError.isInternal (.InvalidPayload ("serialization failed: " ++ "boom")) = false :=
  ⟨rfl, rfl, rfl⟩

/-- C4 (amended): a serialization failure makes the handler fail with
error kind `InvalidPayload` (status 400) and it does not proceed to
publish — no pool acquisition, no publish call. -/
theorem ser_failure_invalid_payload (tok : Option String) (hm : HeaderMap)
    (p : TelemetryPayload) (ser : WsMessage → Except String Json) (e : String)
    (pg : Except String Unit) (pub : Except String Nat)
    (hauth : authorize hm tok = .ok ())
    (h1 : p.lat.isFinite = true) (h2 : p.lon.isFinite = true)
    (h3 : rangeContains (.finite (-90)) (.finite 90) p.lat = true)
    (h4 : rangeContains (.finite (-180)) (.finite 180) p.lon = true)
    (hser : ser { event := "duty_location_update", data := p } = .error e) :
    handle_telemetry tok hm p ser pg pub
        = (.error (.InvalidPayload ("serialization failed: " ++ e)), ⟨0, []⟩)
    ∧ (NodeError.InvalidPayload ("serialization failed: " ++ e)).into_response.1 = 400 :=
  ⟨handle_valid_ser_err tok hm p ser e pg pub hauth h1 h2 h3 h4 hser, rfl⟩

/-- Witness for the amended C4 with a serializer that fails. -/
theorem ser_failure_invalid_payload_witness :
    handle_telemetry none ⟨none, none⟩ p_simple (fun _ => .error "boom")
        (.ok ()) (.ok 0)
        = (.error (.InvalidPayload ("serialization failed: " ++ "boom")), ⟨0, []⟩)
    ∧ (NodeError.InvalidPayload ("serialization failed: " ++ "boom")).into_response.1 = 400 :=
  ser_failure_invalid_payload none ⟨none, none⟩ p_simple (fun _ => .error "boom")
    "boom" (.ok ()) (.ok 0) rfl rfl rfl (by decide) (by decide) rfl

/-- Concrete payload with an empty `user_id` and valid coordinates. -/
def p_empty_uid : TelemetryPayload :=
  { user_id := "", lat := .finite 1, lon := .finite 2,
    accuracy_m := none, unit_label := none }

/-- Counterexample to C8 as stated: the handler never inspects
`user_id`, so an authorized request with an empty `user_id` and valid
coordinates is forwarded — one publish occurs and the response is 200. -/
theorem empty_user_id_forwarded_counterexample :
    p_empty_uid.user_id = ""
    ∧ handle_telemetry (some "s3cret") ⟨some (.valid "Bearer s3cret"), none⟩
        p_empty_uid serialize_ws_message (.ok ()) (.ok 1)
      = (.ok (200, "OK"),
         ⟨1, [("map_updates",
               WsMessage.toJson { event := "duty_location_update", data := p_empty_uid })]⟩) :=
  ⟨rfl, rfl⟩

/-- C8 (amended): `user_id` is not validated — an authorized request
with an empty `user_id` and finite in-range coordinates is forwarded
like any other: exactly one publish and a 200 response. -/
theorem empty_user_id_forwarded (tok : Option String) (hm : HeaderMap)
    (p : TelemetryPayload) (n : Nat)
    (hauth : authorize hm tok = .ok ())
    (_huid : p.user_id = "")
    (h1 : p.lat.isFinite = true) (h2 : p.lon.isFinite = true)
    (h3 : rangeContains (.finite (-90)) (.finite 90) p.lat = true)
    (h4 : rangeContains (.finite (-180)) (.finite 180) p.lon = true) :
    handle_telemetry tok hm p serialize_ws_message (.ok ()) (.ok n)
      = (.ok (200, "OK"),
         ⟨1, [("map_updates",
               WsMessage.toJson { event := "duty_location_update", data := p })]⟩) :=
  handle_valid_publish_ok tok hm p n hauth h1 h2 h3 h4

/-- Witness for the amended C8 at the empty `user_id` payload. -/
theorem empty_user_id_forwarded_witness :
    handle_telemetry none ⟨none, none⟩ p_empty_uid serialize_ws_message
        (.ok ()) (.ok 1)
      = (.ok (200, "OK"),
         ⟨1, [("map_updates",
               WsMessage.toJson { event := "duty_location_update", data := p_empty_uid })]⟩) :=
  empty_user_id_forwarded none ⟨none, none⟩ p_empty_uid 1 rfl rfl rfl rfl
    (by decide) (by decide)
